import Mathlib

/-
Shallow embedding of the geospatial plotting core of the EDA_housing_market
repository (src/cust_func.py and src/geo_plot.py), together with proofs about
its column-validation, normalization, layer-ordering and layout behaviour.

Modelling conventions:
- a pandas DataFrame is an ordered association list of named columns;
- machine floats are exact rationals; the value `none` of `QVal` stands for
  the IEEE NaN/infinity that pandas produces when a division has a zero
  denominator (pandas raises no exception there);
- Python exceptions are modelled by an error component of the result, while
  in-place mutations performed before the raise stay visible in the returned
  dataset/figure state, matching how exceptions propagate past side effects.
-/

namespace EDA

/-- A cell of a tabular dataset column: numeric or string data. -/
inductive Value
  | num (q : ℚ)
  | str (s : String)
deriving DecidableEq

/-- A pandas DataFrame: an ordered list of (column name, column values). -/
abbrev DataFrame := List (String × List Value)

/-- The column names of a DataFrame (pandas df.columns). -/
def cols (df : DataFrame) : List String := df.map Prod.fst

/-- Column access df[c]; callers check presence first (a missing name would be
a pandas KeyError, which the builder embeddings surface explicitly). -/
def getCol (df : DataFrame) (c : String) : List Value :=
  match df with
  | [] => []
  | (n, vs) :: rest => if n = c then vs else getCol rest c

/-- Column assignment df[c] = vs: replaces the column in place when the name
exists, otherwise appends a new column at the end (pandas semantics). -/
def setCol (df : DataFrame) (c : String) (vs : List Value) : DataFrame :=
  match df with
  | [] => [(c, vs)]
  | (n, ws) :: rest => if n = c then (n, vs) :: rest else (n, ws) :: setCol rest c vs

/-- Truncation toward zero: the Python int()/astype(int) cast applied to a float. -/
def asInt (q : ℚ) : Int := q.num.tdiv q.den

/-- Numeric rendering of a rational, standing in for Python str() of a number. -/
def ratStr (q : ℚ) : String :=
  if q.den = 1 then toString q.num else toString q.num ++ "/" ++ toString q.den

/-- astype(int) of a cell (string cells are outside the numeric contract). -/
def valueInt (v : Value) : Int :=
  match v with
  | .num q => asInt q
  | .str _ => 0

/-- astype(str) of a cell. -/
def valueStr (v : Value) : String :=
  match v with
  | .num q => ratStr q
  | .str s => s

/-- Numeric view of a cell (columns fed to the encoder are numeric). -/
def valueQ (v : Value) : ℚ :=
  match v with
  | .num q => q
  | .str _ => 0

/-- A float-like value: `none` models the NaN/∞ a zero-denominator division
produces in pandas (no exception is raised). -/
abbrev QVal := Option ℚ

/-- Pandas division of floats: defined quotient when the denominator is
nonzero, NaN/∞ (modelled as `none`) when it is zero. -/
def qdiv (a b : ℚ) : QVal :=
  if b = 0 then none else some (a / b)

/-- series.min() of a nonempty numeric column (0 only on the empty list,
which is outside every contract here). -/
def listMin : List ℚ → ℚ
  | [] => 0
  | x :: xs => xs.foldl min x

/-- series.max() of a nonempty numeric column. -/
def listMax : List ℚ → ℚ
  | [] => 0
  | x :: xs => xs.foldl max x

/-- cust_func.normalize_column, and the identical nested helper inside
plotting_houses: (series - series.min()) / (series.max() - series.min()),
element-wise over the column. -/
def normalize_column (series : List ℚ) : List QVal :=
  series.map fun v => qdiv (v - listMin series) (listMax series - listMin series)

/-- Opaque external GeoJSON payload (county boundaries, park outlines); the
core only passes it through to the rendering layer. -/
abbrev GeoJSON := String

/-- Marker size: a fixed constant (schools) or a per-point list (houses). -/
inductive SizeSpec
  | constant (s : ℚ)
  | perPoint (s : List QVal)
deriving DecidableEq

/-- go.scattermapbox.Marker / marker dict fields the builders set. -/
structure MarkerSpec where
  size : SizeSpec
  color : String
  opacity : Option ℚ
  symbol : Option String
deriving DecidableEq

/-- One Plotly trace as built by geo_plot: marker scattermapbox (houses,
schools), line scattermapbox (park legend dummy), or choroplethmapbox. -/
inductive Trace
  | scatterMarkers (lat lon : List QVal) (marker : MarkerSpec) (text : List String)
      (hoverinfo : String) (name : String) (showlegend : Bool)
  | scatterLines (lat lon : List QVal) (lineWidth : ℚ) (lineColor : String)
      (name : String) (showlegend : Bool)
  | choroplethMapbox (geojson : GeoJSON) (locations : List Value) (z : List Value)
      (colorscale : String) (showscale : Bool) (markerOpacity : ℚ)
      (featureidkey : String) (name : String) (text : List String)
      (hoverinfo : String) (showlegend : Bool)
deriving DecidableEq

/-- One entry of layout.mapbox_layers. -/
structure MapboxLayer where
  sourcetype : String
  source : GeoJSON
  layerType : String
  color : String
  lineWidth : ℚ
deriving DecidableEq

/-- The legend dict set by update_map_layout. -/
structure LegendConfig where
  title : String
  orientation : String
  yanchor : String
  y : ℚ
  xanchor : String
  x : ℚ
deriving DecidableEq

/-- The layout fields geo_plot touches; `none` means not yet set.
go.Figure() starts with everything unset and no mapbox layers. -/
structure Layout where
  mapboxStyle : Option String
  mapboxZoom : Option ℚ
  mapboxCenter : Option (ℚ × ℚ)
  margin : Option (ℚ × ℚ × ℚ × ℚ)
  legend : Option LegendConfig
  width : Option ℚ
  height : Option ℚ
  mapboxLayers : List MapboxLayer
deriving DecidableEq

/-- The layout of a freshly constructed go.Figure(). -/
def Layout.empty : Layout := ⟨none, none, none, none, none, none, none, []⟩

/-- A Plotly figure: the ordered trace list (insertion order is stacking
order) plus one layout. -/
structure Figure where
  data : List Trace
  layout : Layout
deriving DecidableEq

/-- go.Figure(): empty canvas. -/
def Figure.empty : Figure := ⟨[], Layout.empty⟩

/-- fig.add_trace(t): appends t at the end of the trace list. -/
def addTrace (fig : Figure) (t : Trace) : Figure :=
  { fig with data := fig.data ++ [t] }

/-- The Python exceptions a missing column produces: the explicit
ValueError of the validating builders (message: Missing required column
followed by the name), and the pandas KeyError surfaced when a builder
accesses an absent column directly. Both carry the column name. -/
inductive PlotError
  | missingColumn (col : String)
  | keyError (col : String)
deriving DecidableEq

/-- The column name an error identifies. -/
def errCol : PlotError → String
  | .missingColumn c => c
  | .keyError c => c

/-- Result of one builder call: err records a propagating exception, while
df and fig hold the (possibly mutated) dataset and canvas states visible to
the caller afterwards. -/
structure BResult where
  err : Option PlotError
  df : DataFrame
  fig : Figure
deriving DecidableEq

/-- Pointwise zip of three columns (pandas element-wise string concatenation
over index-aligned series of equal length). -/
def zip3With {α β γ δ : Type} (f : α → β → γ → δ) : List α → List β → List γ → List δ
  | a :: as, b :: bs, c :: cs => f a b c :: zip3With f as bs cs
  | _, _, _ => []

/-- Per-row hover text of plotting_houses:
Price: {p}$<br>Quality: {q}<br>Bedrooms: {b} with p cast astype(int). -/
def housesHover (p q b : Value) : String :=
  "Price: " ++ toString (valueInt p) ++ "$" ++ "<br>Quality: " ++ valueStr q
    ++ "<br>Bedrooms: " ++ valueStr b

/-- The marker sizes of plotting_houses: (normalize_column(price) + 1) * 10,
the +1 keeping the cheapest house visible. NaN entries stay NaN. -/
def housesSizes (prices : List ℚ) : List QVal :=
  (normalize_column prices).map (Option.map fun n => (n + 1) * 10)

/-- The dataset state after plotting_houses writes the derived hover_text
column in place onto the input (df[hover_text] = ...). -/
def housesDf (df : DataFrame) (price_col quality_col bedrooms_col : String) : DataFrame :=
  setCol df "hover_text"
    ((zip3With housesHover (getCol df price_col) (getCol df quality_col)
      (getCol df bedrooms_col)).map Value.str)

/-- The scattermapbox trace plotting_houses appends, built from the dataset
after the hover_text column was written. -/
def housesTraceOf (df' : DataFrame) (price_col lat_col long_col legend_entry : String) : Trace :=
  .scatterMarkers
    ((getCol df' lat_col).map fun v => some (valueQ v))
    ((getCol df' long_col).map fun v => some (valueQ v))
    ⟨.perPoint (housesSizes ((getCol df' price_col).map valueQ)), "blue", none, none⟩
    ((getCol df' "hover_text").map valueStr)
    "text" legend_entry true

/-- geo_plot.plotting_houses. Validates the five required columns in order
(raising ValueError at the first absent one) before any mutation, then
writes the derived hover_text column onto the input df in place, and
appends one marker trace sized by the normalized price column. -/
def plotting_houses (df : DataFrame) (fig : Figure)
    (price_col quality_col bedrooms_col lat_col long_col legend_entry : String) : BResult :=
  if price_col ∉ cols df then ⟨some (.missingColumn price_col), df, fig⟩
  else if quality_col ∉ cols df then ⟨some (.missingColumn quality_col), df, fig⟩
  else if bedrooms_col ∉ cols df then ⟨some (.missingColumn bedrooms_col), df, fig⟩
  else if lat_col ∉ cols df then ⟨some (.missingColumn lat_col), df, fig⟩
  else if long_col ∉ cols df then ⟨some (.missingColumn long_col), df, fig⟩
  else
    let df' := housesDf df price_col quality_col bedrooms_col
    ⟨none, df', addTrace fig (housesTraceOf df' price_col lat_col long_col legend_entry)⟩

/-- Per-row hover text of add_choropleth_map:
Zipcode: {z}<br>Quality: {q}. -/
def choroHover (z q : Value) : String :=
  "Zipcode: " ++ valueStr z ++ "<br>Quality: " ++ valueStr q

/-- The dataset state after add_choropleth_map writes the derived hover_text
column in place onto the input. -/
def choroDf (df : DataFrame) (zipcode_col house_quality_col : String) : DataFrame :=
  setCol df "hover_text"
    (((getCol df zipcode_col).zipWith choroHover (getCol df house_quality_col)).map Value.str)

/-- The choroplethmapbox trace add_choropleth_map appends, from the dataset
after the hover_text write: Hot colorscale, no separate colorbar, opacity
0.4, joined on properties.ZCTA5CE10. -/
def choroTraceOf (df' : DataFrame) (counties : GeoJSON)
    (zipcode_col house_quality_col legend_entry : String) : Trace :=
  .choroplethMapbox counties (getCol df' zipcode_col) (getCol df' house_quality_col)
    "Hot" false (2/5) "properties.ZCTA5CE10" legend_entry
    ((getCol df' "hover_text").map valueStr) "text" true

/-- geo_plot.add_choropleth_map. Validates the two required columns in order
before any mutation, writes hover_text onto the input df in place, and
appends one choropleth trace. -/
def add_choropleth_map (df : DataFrame) (fig : Figure) (counties : GeoJSON)
    (zipcode_col house_quality_col legend_entry : String) : BResult :=
  if zipcode_col ∉ cols df then ⟨some (.missingColumn zipcode_col), df, fig⟩
  else if house_quality_col ∉ cols df then ⟨some (.missingColumn house_quality_col), df, fig⟩
  else
    let df' := choroDf df zipcode_col house_quality_col
    ⟨none, df', addTrace fig (choroTraceOf df' counties zipcode_col house_quality_col legend_entry)⟩

/-- Case-insensitive character-prefix test, used by the case=False string
replacement in add_schools_layer. -/
def ciStarts : List Char → List Char → Bool
  | [], _ => true
  | _ :: _, [] => false
  | p :: ps, c :: cs => p.toLower = c.toLower && ciStarts ps cs

/-- Remove every case-insensitive occurrence of pat from a character list. -/
def ciRemoveAux (pat : List Char) : List Char → List Char
  | [] => []
  | c :: cs =>
    if ciStarts pat (c :: cs) then ciRemoveAux pat (cs.drop (pat.length - 1))
    else c :: ciRemoveAux pat cs
termination_by l => l.length
decreasing_by
  all_goals simp [List.length_drop]
  omega

/-- Models str.replace(pat, empty, case=False): delete case-insensitive occurrences. -/
def ciRemove (pat s : String) : String := ⟨ciRemoveAux pat.data s.data⟩

/-- Per-row hover text of add_schools_layer: name, line break, then the
description with School- removed case-insensitively and stripped. -/
def schoolHover (n d : Value) : String :=
  valueStr n ++ "<br>" ++ (ciRemove "School-" (valueStr d)).trim

/-- The dataset state after add_schools_layer writes the derived hover_text
column in place onto the input. -/
def schoolsDf (df : DataFrame) (name_col desc_col : String) : DataFrame :=
  setCol df "hover_text"
    (((getCol df name_col).zipWith schoolHover (getCol df desc_col)).map Value.str)

/-- The scattermapbox trace add_schools_layer appends: fixed size-4 dark red
circle markers at 0.8 opacity. -/
def schoolsTraceOf (df' : DataFrame) (lat_col lon_col legend_entry : String) : Trace :=
  .scatterMarkers
    ((getCol df' lat_col).map fun v => some (valueQ v))
    ((getCol df' lon_col).map fun v => some (valueQ v))
    ⟨.constant 4, "darkred", some (4/5), some "circle"⟩
    ((getCol df' "hover_text").map valueStr)
    "text" legend_entry true

/-- geo_plot.add_schools_layer. This builder performs no explicit column
validation: a missing column surfaces as a pandas KeyError at the first
direct access, in source order name, description (during the hover_text
computation, before the in-place write), then latitude, longitude (while the
trace arguments are evaluated, after the write but before add_trace). -/
def add_schools_layer (fig : Figure) (gdf_schools : DataFrame)
    (lat_col lon_col name_col desc_col legend_entry : String) : BResult :=
  if name_col ∉ cols gdf_schools then ⟨some (.keyError name_col), gdf_schools, fig⟩
  else if desc_col ∉ cols gdf_schools then ⟨some (.keyError desc_col), gdf_schools, fig⟩
  else
    let df' := schoolsDf gdf_schools name_col desc_col
    if lat_col ∉ cols df' then ⟨some (.keyError lat_col), df', fig⟩
    else if lon_col ∉ cols df' then ⟨some (.keyError lon_col), df', fig⟩
    else ⟨none, df', addTrace fig (schoolsTraceOf df' lat_col lon_col legend_entry)⟩

/-- The dummy legend-only trace of add_park_outlines_layer: a line-mode
scattermapbox with a single None point, green width-3 line. -/
def parkDummyTrace (legend_entry : String) : Trace :=
  .scatterLines [none] [none] 3 "green" legend_entry true

/-- The layout-level geojson line overlay add_park_outlines_layer registers. -/
def parkOverlay (parks : GeoJSON) : MapboxLayer :=
  ⟨"geojson", parks, "line", "green", 3/2⟩

/-- geo_plot.add_park_outlines_layer. Appends the dummy legend trace, then
update_layout assigns mapbox_layers to a fresh one-element list (replacing
any previous overlay list rather than appending to it). -/
def add_park_outlines_layer (fig : Figure) (parks : GeoJSON) (legend_entry : String) : Figure :=
  let fig1 := addTrace fig (parkDummyTrace legend_entry)
  { fig1 with layout := { fig1.layout with mapboxLayers := [parkOverlay parks] } }

/-- The legend dict update_map_layout installs: vertical, pinned top-left. -/
def legendSettings : LegendConfig :=
  ⟨"Legend", "v", "top", 99/100, "left", 1/100⟩

/-- geo_plot.update_map_layout: overwrites style, zoom 9, the given center,
zero margins, the fixed legend placement, and 1000x1000 dimensions; other
layout state (the mapbox overlay list) is untouched. -/
def update_map_layout (fig : Figure) (lat lon : ℚ) (mapbox_style : String) : Figure :=
  { fig with layout := { fig.layout with
      mapboxStyle := some mapbox_style
      mapboxZoom := some 9
      mapboxCenter := some (lat, lon)
      margin := some (0, 0, 0, 0)
      legend := some legendSettings
      width := some 1000
      height := some 1000 } }

/-- The four layer kinds, in the fixed orchestrator order of construction. -/
inductive LayerKind
  | region
  | outline
  | school
  | house
deriving DecidableEq

/-- Classifies a built trace by the builder that produces it: choropleth
traces come only from the region builder, line traces only from the outline
dummy, constant-size markers only from the school builder and per-point
sized markers only from the house builder. -/
def traceKind : Trace → LayerKind
  | .choroplethMapbox .. => .region
  | .scatterLines .. => .outline
  | .scatterMarkers _ _ ⟨.constant _, _, _, _⟩ _ _ _ _ => .school
  | .scatterMarkers _ _ ⟨.perPoint _, _, _, _⟩ _ _ _ _ => .house

/-- Observable chronology of one vizualize_findings call: successful layer
additions, the layout update, fig.show(), and fig.write_image(path). -/
inductive Event
  | addedLayer (k : LayerKind)
  | layoutFinalized
  | shown
  | exported (path : String)
deriving DecidableEq

/-- State threaded through the orchestrator: a pending exception (which
aborts everything after it), the canvas, and the event log so far. -/
structure VizResult where
  err : Option PlotError
  fig : Figure
  events : List Event
deriving DecidableEq

/-- Default legend label of plotting_houses. -/
def housesLegendDefault : String := "Houses <br>cheap (small) to expensive (large)"

/-- Default legend label of add_choropleth_map. -/
def choroLegendDefault : String := "Average house quality <br>low (dark red) to high (bright yellow)"

/-- Folds one builder call into the orchestrator state: on success the
canvas advances and the addition is logged; an exception is recorded and
propagates (the canvas state the builder left behind stays visible). -/
def afterBuilder (s : VizResult) (r : BResult) (k : LayerKind) : VizResult :=
  match r.err with
  | some e => ⟨some e, r.fig, s.events⟩
  | none => ⟨none, r.fig, s.events ++ [.addedLayer k]⟩

/-- Orchestrator step: if df_county is not None and county is not None,
add_choropleth_map(df_county, fig, county) with its default column names. -/
def stepRegion (s : VizResult) (df_county : Option DataFrame) (county : Option GeoJSON) : VizResult :=
  match s.err, df_county, county with
  | none, some dc, some g =>
      afterBuilder s (add_choropleth_map dc s.fig g "zipcode" "house_quality" choroLegendDefault) .region
  | _, _, _ => s

/-- Orchestrator step: if parks is not None, add_park_outlines_layer (this
builder cannot raise). -/
def stepParks (s : VizResult) (parks : Option GeoJSON) : VizResult :=
  match s.err, parks with
  | none, some p =>
      ⟨none, add_park_outlines_layer s.fig p "Park outlines", s.events ++ [.addedLayer .outline]⟩
  | _, _ => s

/-- Orchestrator step: if df_schools is not None, add_schools_layer with its
default column names. -/
def stepSchools (s : VizResult) (df_schools : Option DataFrame) : VizResult :=
  match s.err, df_schools with
  | none, some d =>
      afterBuilder s (add_schools_layer s.fig d "LAT_CEN" "LONG_CEN" "ABB_NAME" "FEATUREDES" "Schools") .school
  | _, _ => s

/-- Orchestrator step: if df_houses is not None, plotting_houses with its
default column names. -/
def stepHouses (s : VizResult) (df_houses : Option DataFrame) : VizResult :=
  match s.err, df_houses with
  | none, some d =>
      afterBuilder s (plotting_houses d s.fig "price" "house_quality" "bedrooms" "lat" "long" housesLegendDefault) .house
  | _, _ => s

/-- Orchestrator tail: update_map_layout, fig.show(), then, if save_png is
not None, fig.write_image(save_png); skipped entirely when an earlier layer
raised (the exception aborts the call before any display or export). -/
def stepFinalize (s : VizResult) (lat lon : ℚ) (mapbox_style : String)
    (save_png : Option String) : VizResult :=
  match s.err with
  | some _ => s
  | none =>
    let f := update_map_layout s.fig lat lon mapbox_style
    match save_png with
    | none => ⟨none, f, s.events ++ [.layoutFinalized, .shown]⟩
    | some p => ⟨none, f, s.events ++ [.layoutFinalized, .shown, .exported p]⟩

/-- geo_plot.vizualize_findings: builds a fresh go.Figure(), then in source
order region, parks, schools, houses (each only when its dataset argument is
supplied), then layout, interactive display, and optional static export.
Python defaults: all datasets None, save_png None, lat 47.3464,
lon -121.9861, style open-street-map. -/
def vizualize_findings (df_houses df_schools df_county : Option DataFrame)
    (parks county : Option GeoJSON) (save_png : Option String)
    (lat lon : ℚ) (mapbox_style : String) : VizResult :=
  stepFinalize
    (stepHouses
      (stepSchools
        (stepParks
          (stepRegion ⟨none, Figure.empty, []⟩ df_county county)
          parks)
        df_schools)
      df_houses)
    lat lon mapbox_style save_png

/-- The required columns of plotting_houses, in its validation order (these
are the Python default column-name parameters). -/
def housesRequired : List String := ["price", "house_quality", "bedrooms", "lat", "long"]

/-- The required columns of add_choropleth_map, in its validation order. -/
def choroRequired : List String := ["zipcode", "house_quality"]

/-- The required columns of add_schools_layer, in the order a pandas
KeyError surfaces for them (name and description are touched first, during
the hover computation, then latitude and longitude). -/
def schoolsRequired : List String := ["ABB_NAME", "FEATUREDES", "LAT_CEN", "LONG_CEN"]

/-- A sample three-house dataset with prices 100, 200, 300, used to
instantiate theorems at concrete inputs. -/
def housesSample : DataFrame :=
  [("price", [.num 100, .num 200, .num 300]),
   ("house_quality", [.str "3", .str "4", .str "5"]),
   ("bedrooms", [.str "2", .str "3", .str "4"]),
   ("lat", [.num 47, .num 47, .num 47]),
   ("long", [.num (-122), .num (-122), .num (-122)])]

/-- A sample region dataset for the choropleth builder. -/
def countySample : DataFrame :=
  [("zipcode", [.str "98001", .str "98002"]),
   ("house_quality", [.num 3, .num 4])]

/-- A sample school dataset. -/
def schoolsSample : DataFrame :=
  [("LAT_CEN", [.num 47]), ("LONG_CEN", [.num (-122)]),
   ("ABB_NAME", [.str "North HS"]), ("FEATUREDES", [.str "School-Public"])]

/-- Extracts the per-point marker size list of a marker trace, when it has
one (used to observe the sizes the house builder produced). -/
def traceSizes : Trace → Option (List QVal)
  | .scatterMarkers _ _ ⟨.perPoint s, _, _, _⟩ _ _ _ _ => some s
  | _ => none

/-! Helper lemmas about the DataFrame operations and the fold-based
minimum/maximum, shared by the claim theorems below. -/

theorem mem_cols_setCol (df : DataFrame) (c c' : String) (vs : List Value) :
    c' ∈ cols (setCol df c vs) ↔ c' ∈ cols df ∨ c' = c := by
  induction df with
  | nil => simp [setCol, cols]
  | cons p rest ih =>
    obtain ⟨n, ws⟩ := p
    by_cases h : n = c
    · subst h
      simp [setCol, cols]
      tauto
    · simp [setCol, h, cols] at ih ⊢
      tauto

theorem getCol_setCol_ne (df : DataFrame) (c c' : String) (vs : List Value)
    (h : c' ≠ c) : getCol (setCol df c vs) c' = getCol df c' := by
  have h' : c ≠ c' := Ne.symm h
  induction df with
  | nil => simp [setCol, getCol, h']
  | cons p rest ih =>
    obtain ⟨n, ws⟩ := p
    by_cases hn : n = c
    · subst hn
      simp [setCol, getCol, h']
    · simp only [setCol, if_neg hn]
      by_cases hc : n = c'
      · simp [getCol, hc]
      · simp [getCol, hc, ih]

theorem foldl_min_le (xs : List ℚ) : ∀ a : ℚ, xs.foldl min a ≤ a := by
  induction xs with
  | nil => intro a; simp
  | cons x xs ih =>
    intro a
    exact le_trans (ih (min a x)) (min_le_left a x)

theorem foldl_min_le_mem (xs : List ℚ) : ∀ a : ℚ, ∀ v ∈ xs, xs.foldl min a ≤ v := by
  induction xs with
  | nil => intro a v hv; cases hv
  | cons x xs ih =>
    intro a v hv
    rcases List.mem_cons.mp hv with h | h
    · subst h
      exact le_trans (foldl_min_le xs (min a v)) (min_le_right a v)
    · exact ih (min a x) v h

theorem listMin_le_of_mem {l : List ℚ} {v : ℚ} (h : v ∈ l) : listMin l ≤ v := by
  cases l with
  | nil => cases h
  | cons x xs =>
    rcases List.mem_cons.mp h with hx | hx
    · subst hx
      exact foldl_min_le xs v
    · exact foldl_min_le_mem xs x v hx

theorem le_foldl_max (xs : List ℚ) : ∀ a : ℚ, a ≤ xs.foldl max a := by
  induction xs with
  | nil => intro a; simp
  | cons x xs ih =>
    intro a
    exact le_trans (le_max_left a x) (ih (max a x))

theorem mem_le_foldl_max (xs : List ℚ) : ∀ a : ℚ, ∀ v ∈ xs, v ≤ xs.foldl max a := by
  induction xs with
  | nil => intro a v hv; cases hv
  | cons x xs ih =>
    intro a v hv
    rcases List.mem_cons.mp hv with h | h
    · subst h
      exact le_trans (le_max_right a v) (le_foldl_max xs (max a v))
    · exact ih (max a x) v h

theorem le_listMax_of_mem {l : List ℚ} {v : ℚ} (h : v ∈ l) : v ≤ listMax l := by
  cases l with
  | nil => cases h
  | cons x xs =>
    rcases List.mem_cons.mp h with hx | hx
    · subst hx
      exact le_foldl_max xs v
    · exact mem_le_foldl_max xs x v hx

/-! Success-path lemmas for the four builders with their default column
names: a fully valid dataset makes each call succeed, write hover text in
place, and append exactly its one trace. -/

theorem plotting_houses_valid (df : DataFrame) (fig : Figure) (leg : String)
    (h : ∀ c ∈ housesRequired, c ∈ cols df) :
    plotting_houses df fig "price" "house_quality" "bedrooms" "lat" "long" leg =
      ⟨none, housesDf df "price" "house_quality" "bedrooms",
        addTrace fig (housesTraceOf (housesDf df "price" "house_quality" "bedrooms")
          "price" "lat" "long" leg)⟩ := by
  have h1 := h "price" (by simp [housesRequired])
  have h2 := h "house_quality" (by simp [housesRequired])
  have h3 := h "bedrooms" (by simp [housesRequired])
  have h4 := h "lat" (by simp [housesRequired])
  have h5 := h "long" (by simp [housesRequired])
  simp [plotting_houses, h1, h2, h3, h4, h5]

theorem add_choropleth_map_valid (df : DataFrame) (fig : Figure) (geo : GeoJSON) (leg : String)
    (h : ∀ c ∈ choroRequired, c ∈ cols df) :
    add_choropleth_map df fig geo "zipcode" "house_quality" leg =
      ⟨none, choroDf df "zipcode" "house_quality",
        addTrace fig (choroTraceOf (choroDf df "zipcode" "house_quality") geo
          "zipcode" "house_quality" leg)⟩ := by
  have h1 := h "zipcode" (by simp [choroRequired])
  have h2 := h "house_quality" (by simp [choroRequired])
  simp [add_choropleth_map, h1, h2]

theorem add_schools_layer_valid (df : DataFrame) (fig : Figure) (leg : String)
    (h : ∀ c ∈ schoolsRequired, c ∈ cols df) :
    add_schools_layer fig df "LAT_CEN" "LONG_CEN" "ABB_NAME" "FEATUREDES" leg =
      ⟨none, schoolsDf df "ABB_NAME" "FEATUREDES",
        addTrace fig (schoolsTraceOf (schoolsDf df "ABB_NAME" "FEATUREDES")
          "LAT_CEN" "LONG_CEN" leg)⟩ := by
  have h1 := h "ABB_NAME" (by simp [schoolsRequired])
  have h2 := h "FEATUREDES" (by simp [schoolsRequired])
  have h3 : "LAT_CEN" ∈ cols (schoolsDf df "ABB_NAME" "FEATUREDES") := by
    rw [schoolsDf, mem_cols_setCol]
    exact Or.inl (h "LAT_CEN" (by simp [schoolsRequired]))
  have h4 : "LONG_CEN" ∈ cols (schoolsDf df "ABB_NAME" "FEATUREDES") := by
    rw [schoolsDf, mem_cols_setCol]
    exact Or.inl (h "LONG_CEN" (by simp [schoolsRequired]))
  simp [add_schools_layer, h1, h2, h3, h4]

theorem getLast?_addTrace (fig : Figure) (t : Trace) :
    (addTrace fig t).data.getLast? = some t := by
  simp [addTrace]

theorem housesSizes_100_200_300 :
    housesSizes [100, 200, 300] = [some 10, some 15, some 20] := by
  norm_num [housesSizes, normalize_column, listMin, listMax, qdiv, min_def, max_def]

/-- The marker sizes the house builder produces on any dataset whose price
column holds exactly 100, 200, 300 in that order. -/
theorem houses_sizes_of_price_100_200_300 (df : DataFrame) (fig : Figure) (leg : String)
    (hval : ∀ c ∈ housesRequired, c ∈ cols df)
    (hprice : getCol df "price" = [.num 100, .num 200, .num 300]) :
    ((plotting_houses df fig "price" "house_quality" "bedrooms" "lat" "long" leg).fig.data.getLast?).bind
        traceSizes = some [some 10, some 15, some 20] := by
  rw [plotting_houses_valid df fig leg hval, getLast?_addTrace]
  have hp : getCol (housesDf df "price" "house_quality" "bedrooms") "price" =
      [.num 100, .num 200, .num 300] := by
    rw [housesDf, getCol_setCol_ne _ _ _ _ (by decide)]
    exact hprice
  simp [housesTraceOf, traceSizes, hp, valueQ, housesSizes_100_200_300]

/-- C3: for every non-empty numeric column with max > min, the Visual
Encoder (normalize_column) returns a same-length sequence mapping each value
v to (v - min) / (max - min); the minimum maps to exactly 0, the maximum to
exactly 1, and every value strictly between min and max strictly inside
(0,1). -/
theorem C3_visual_encoder_normalization (series : List ℚ) (_hne : series ≠ [])
    (hlt : listMin series < listMax series) :
    (normalize_column series).length = series.length ∧
    normalize_column series =
      series.map (fun v => some ((v - listMin series) / (listMax series - listMin series))) ∧
    (∀ v ∈ series, v = listMin series →
      (v - listMin series) / (listMax series - listMin series) = 0) ∧
    (∀ v ∈ series, v = listMax series →
      (v - listMin series) / (listMax series - listMin series) = 1) ∧
    (∀ v ∈ series, listMin series < v → v < listMax series →
      0 < (v - listMin series) / (listMax series - listMin series) ∧
      (v - listMin series) / (listMax series - listMin series) < 1) := by
  have hD : listMax series - listMin series ≠ 0 := sub_ne_zero.mpr (ne_of_gt hlt)
  have hDpos : 0 < listMax series - listMin series := sub_pos.mpr hlt
  refine ⟨by simp [normalize_column], ?_, ?_, ?_, ?_⟩
  · simp [normalize_column, qdiv, hD]
  · intro v _ hv
    simp [hv]
  · intro v _ hv
    rw [hv]
    exact div_self hD
  · intro v _ h1 h2
    refine ⟨div_pos (sub_pos.mpr h1) hDpos, ?_⟩
    rw [div_lt_one hDpos]
    exact sub_lt_sub_right h2 (listMin series)

/-- Witness for C3 at the concrete column [1, 2, 4]. -/
theorem C3_witness :
    [(1 : ℚ), 2, 4] ≠ [] ∧ listMin [(1 : ℚ), 2, 4] < listMax [(1 : ℚ), 2, 4] ∧
    normalize_column [(1 : ℚ), 2, 4] =
      [(1 : ℚ), 2, 4].map (fun v =>
        some ((v - listMin [(1 : ℚ), 2, 4]) / (listMax [(1 : ℚ), 2, 4] - listMin [(1 : ℚ), 2, 4]))) :=
  ⟨by decide, by decide,
    (C3_visual_encoder_normalization [(1 : ℚ), 2, 4] (by decide) (by decide)).2.1⟩

/-- C2 counterexample: on the concrete three-house dataset with prices 100,
200, 300 the house builder produces marker sizes 10, 15, 20 — not the
10, 20, 30 the claim states (normalization gives 0, 1/2, 1, and
(normalized + 1) * 10 gives 10, 15, 20). -/
theorem C2_counterexample :
    (((plotting_houses housesSample Figure.empty "price" "house_quality" "bedrooms"
        "lat" "long" housesLegendDefault).fig.data.getLast?).bind traceSizes) =
      some [some 10, some 15, some 20] ∧
    (((plotting_houses housesSample Figure.empty "price" "house_quality" "bedrooms"
        "lat" "long" housesLegendDefault).fig.data.getLast?).bind traceSizes) ≠
      some [some 10, some 20, some 30] := by
  have hs := houses_sizes_of_price_100_200_300 housesSample Figure.empty housesLegendDefault
    (by decide) (by decide)
  refine ⟨hs, ?_⟩
  intro hcontra
  rw [hs] at hcontra
  norm_num at hcontra

/-- C2 amended: for a house dataset whose price column contains exactly the
values 100, 200, 300 (in those rows), the marker sizes produced by the house
builder — normalization, the +1 shift and the *10 scale — are exactly 10,
15, 20 for those three rows respectively; the call succeeds and appends
exactly one trace carrying them. -/
theorem C2_house_marker_sizes_amended (quality bedrooms lats longs : List Value)
    (fig : Figure) (leg : String) :
    (plotting_houses [("price", [.num 100, .num 200, .num 300]),
        ("house_quality", quality), ("bedrooms", bedrooms),
        ("lat", lats), ("long", longs)] fig
        "price" "house_quality" "bedrooms" "lat" "long" leg).err = none ∧
    (plotting_houses [("price", [.num 100, .num 200, .num 300]),
        ("house_quality", quality), ("bedrooms", bedrooms),
        ("lat", lats), ("long", longs)] fig
        "price" "house_quality" "bedrooms" "lat" "long" leg).fig.data.length =
      fig.data.length + 1 ∧
    (((plotting_houses [("price", [.num 100, .num 200, .num 300]),
        ("house_quality", quality), ("bedrooms", bedrooms),
        ("lat", lats), ("long", longs)] fig
        "price" "house_quality" "bedrooms" "lat" "long" leg).fig.data.getLast?).bind
      traceSizes) = some [some 10, some 15, some 20] := by
  have hval : ∀ c ∈ housesRequired,
      c ∈ cols [("price", [Value.num 100, Value.num 200, Value.num 300]),
        ("house_quality", quality), ("bedrooms", bedrooms),
        ("lat", lats), ("long", longs)] := by
    intro c hc
    simp [housesRequired] at hc
    simp [cols]
    tauto
  refine ⟨?_, ?_, ?_⟩
  · rw [plotting_houses_valid _ fig leg hval]
  · rw [plotting_houses_valid _ fig leg hval]
    simp [addTrace]
  · exact houses_sizes_of_price_100_200_300 _ fig leg hval (by simp [getCol])

/-- C6: on a non-empty constant column (max = min) the Visual Encoder
performs the division with a zero denominator unguarded: it raises nothing
(it still returns a full-length sequence) and every entry is the undefined
NaN value, not some fixed rational constant. -/
theorem C6_degenerate_range_unguarded (series : List ℚ) (hne : series ≠ [])
    (hc : listMax series = listMin series) :
    normalize_column series = series.map (fun _ => (none : QVal)) ∧
    (normalize_column series).length = series.length ∧
    ∀ q : ℚ, normalize_column series ≠ series.map (fun _ => (some q : QVal)) := by
  have h0 : listMax series - listMin series = 0 := sub_eq_zero.mpr hc
  have hall : normalize_column series = series.map (fun _ => (none : QVal)) := by
    simp [normalize_column, qdiv, h0]
  refine ⟨hall, by simp [normalize_column], ?_⟩
  intro q hq
  rw [hall] at hq
  cases series with
  | nil => exact hne rfl
  | cons x xs => simp at hq

/-- Witness for C6 at the concrete constant column [5, 5]. -/
theorem C6_witness :
    [(5 : ℚ), 5] ≠ [] ∧ listMax [(5 : ℚ), 5] = listMin [(5 : ℚ), 5] ∧
    normalize_column [(5 : ℚ), 5] = [(5 : ℚ), 5].map (fun _ => (none : QVal)) :=
  ⟨by decide, by decide,
    (C6_degenerate_range_unguarded [(5 : ℚ), 5] (by decide) (by decide)).1⟩

/-- C8: the Layout Finalizer (update_map_layout) is idempotent: applying it
twice with the same center and style leaves exactly the layout configuration
(style, zoom, center, margins, legend placement, width, height, overlays) of
a single application. -/
theorem C8_layout_finalizer_idempotent (fig : Figure) (lat lon : ℚ) (style : String) :
    update_map_layout (update_map_layout fig lat lon style) lat lon style =
      update_map_layout fig lat lon style := rfl

/-- C10: add_park_outlines_layer assigns the layout overlay list to a fresh
one-element list rather than appending: whatever the prior overlay state,
one call leaves exactly one park overlay, and a second call appends a second
legend dummy trace while still leaving exactly one overlay registration. -/
theorem C10_outline_overlay_replaced_not_appended (fig : Figure) (parks : GeoJSON)
    (leg : String) :
    (add_park_outlines_layer fig parks leg).layout.mapboxLayers = [parkOverlay parks] ∧
    (add_park_outlines_layer fig parks leg).data = fig.data ++ [parkDummyTrace leg] ∧
    (add_park_outlines_layer (add_park_outlines_layer fig parks leg) parks leg).data =
      fig.data ++ [parkDummyTrace leg, parkDummyTrace leg] ∧
    (add_park_outlines_layer (add_park_outlines_layer fig parks leg) parks leg).layout.mapboxLayers =
      [parkOverlay parks] := by
  refine ⟨rfl, rfl, ?_, rfl⟩
  simp [add_park_outlines_layer, addTrace]

/-- C1: for each Layer Builder taking a tabular dataset (houses, choropleth
region, schools — the park outline builder takes no dataset and has no
required columns, so the claim is vacuous for it), a call on a dataset
missing one required column raises a condition identifying exactly that
column (the explicit ValueError of the validating house/region builders, the
pandas KeyError of the school builder) and leaves the canvas trace list
unchanged: validation or the failing access happens before any append, so no incomplete
canvas mutation occurs. -/
theorem C1_missing_column_leaves_canvas_unchanged (df : DataFrame) (fig : Figure)
    (col : String) :
    (col ∈ housesRequired → col ∉ cols df →
      (∀ c ∈ housesRequired, c ≠ col → c ∈ cols df) →
      ∃ e, plotting_houses df fig "price" "house_quality" "bedrooms" "lat" "long"
          housesLegendDefault = ⟨some e, df, fig⟩ ∧ errCol e = col) ∧
    (∀ geo : GeoJSON, col ∈ choroRequired → col ∉ cols df →
      (∀ c ∈ choroRequired, c ≠ col → c ∈ cols df) →
      ∃ e, add_choropleth_map df fig geo "zipcode" "house_quality" choroLegendDefault =
          ⟨some e, df, fig⟩ ∧ errCol e = col) ∧
    (col ∈ schoolsRequired → col ∉ cols df →
      (∀ c ∈ schoolsRequired, c ≠ col → c ∈ cols df) →
      ∃ e, (add_schools_layer fig df "LAT_CEN" "LONG_CEN" "ABB_NAME" "FEATUREDES"
            "Schools").err = some e ∧ errCol e = col ∧
        (add_schools_layer fig df "LAT_CEN" "LONG_CEN" "ABB_NAME" "FEATUREDES"
            "Schools").fig = fig) := by
  refine ⟨?_, ?_, ?_⟩
  · intro hmem hmiss hoth
    simp only [housesRequired, List.mem_cons, List.not_mem_nil, or_false] at hmem
    rcases hmem with h | h | h | h | h <;> subst h
    · exact ⟨.missingColumn "price", by simp [plotting_houses, hmiss], rfl⟩
    · have h1 := hoth "price" (by simp [housesRequired]) (by decide)
      exact ⟨.missingColumn "house_quality", by simp [plotting_houses, h1, hmiss], rfl⟩
    · have h1 := hoth "price" (by simp [housesRequired]) (by decide)
      have h2 := hoth "house_quality" (by simp [housesRequired]) (by decide)
      exact ⟨.missingColumn "bedrooms", by simp [plotting_houses, h1, h2, hmiss], rfl⟩
    · have h1 := hoth "price" (by simp [housesRequired]) (by decide)
      have h2 := hoth "house_quality" (by simp [housesRequired]) (by decide)
      have h3 := hoth "bedrooms" (by simp [housesRequired]) (by decide)
      exact ⟨.missingColumn "lat", by simp [plotting_houses, h1, h2, h3, hmiss], rfl⟩
    · have h1 := hoth "price" (by simp [housesRequired]) (by decide)
      have h2 := hoth "house_quality" (by simp [housesRequired]) (by decide)
      have h3 := hoth "bedrooms" (by simp [housesRequired]) (by decide)
      have h4 := hoth "lat" (by simp [housesRequired]) (by decide)
      exact ⟨.missingColumn "long", by simp [plotting_houses, h1, h2, h3, h4, hmiss], rfl⟩
  · intro geo hmem hmiss hoth
    simp only [choroRequired, List.mem_cons, List.not_mem_nil, or_false] at hmem
    rcases hmem with h | h <;> subst h
    · exact ⟨.missingColumn "zipcode", by simp [add_choropleth_map, hmiss], rfl⟩
    · have h1 := hoth "zipcode" (by simp [choroRequired]) (by decide)
      exact ⟨.missingColumn "house_quality", by simp [add_choropleth_map, h1, hmiss], rfl⟩
  · intro hmem hmiss hoth
    simp only [schoolsRequired, List.mem_cons, List.not_mem_nil, or_false] at hmem
    rcases hmem with h | h | h | h <;> subst h
    · exact ⟨.keyError "ABB_NAME", by simp [add_schools_layer, hmiss], rfl, by
        simp [add_schools_layer, hmiss]⟩
    · have h1 := hoth "ABB_NAME" (by simp [schoolsRequired]) (by decide)
      exact ⟨.keyError "FEATUREDES", by simp [add_schools_layer, h1, hmiss], rfl, by
        simp [add_schools_layer, h1, hmiss]⟩
    · have h1 := hoth "ABB_NAME" (by simp [schoolsRequired]) (by decide)
      have h2 := hoth "FEATUREDES" (by simp [schoolsRequired]) (by decide)
      have h3 : "LAT_CEN" ∉ cols (schoolsDf df "ABB_NAME" "FEATUREDES") := by
        rw [schoolsDf, mem_cols_setCol]
        rintro (hx | hx)
        · exact hmiss hx
        · exact absurd hx (by decide)
      exact ⟨.keyError "LAT_CEN", by simp [add_schools_layer, h1, h2, h3], rfl, by
        simp [add_schools_layer, h1, h2, h3]⟩
    · have h1 := hoth "ABB_NAME" (by simp [schoolsRequired]) (by decide)
      have h2 := hoth "FEATUREDES" (by simp [schoolsRequired]) (by decide)
      have h3 : "LAT_CEN" ∈ cols (schoolsDf df "ABB_NAME" "FEATUREDES") := by
        rw [schoolsDf, mem_cols_setCol]
        exact Or.inl (hoth "LAT_CEN" (by simp [schoolsRequired]) (by decide))
      have h4 : "LONG_CEN" ∉ cols (schoolsDf df "ABB_NAME" "FEATUREDES") := by
        rw [schoolsDf, mem_cols_setCol]
        rintro (hx | hx)
        · exact hmiss hx
        · exact absurd hx (by decide)
      exact ⟨.keyError "LONG_CEN", by simp [add_schools_layer, h1, h2, h3, h4], rfl, by
        simp [add_schools_layer, h1, h2, h3, h4]⟩

/-- Witness for C1: on a dataset lacking only the price column, the house
builder fails with the ValueError naming price and the canvas is unchanged. -/
theorem C1_witness :
    ∃ e, plotting_houses [("house_quality", []), ("bedrooms", []), ("lat", []), ("long", [])]
        Figure.empty "price" "house_quality" "bedrooms" "lat" "long" housesLegendDefault =
        ⟨some e, [("house_quality", []), ("bedrooms", []), ("lat", []), ("long", [])],
          Figure.empty⟩ ∧ errCol e = "price" :=
  (C1_missing_column_leaves_canvas_unchanged
      [("house_quality", []), ("bedrooms", []), ("lat", []), ("long", [])]
      Figure.empty "price").1 (by decide) (by decide) (by decide)

/-- C5 counterexample: the house builder, called on a fully valid concrete
dataset, hands back a dataset whose column list has gained a hover_text
column — the caller-supplied table is not left identical, falsifying the
no-mutation claim. -/
theorem C5_counterexample :
    cols (plotting_houses housesSample Figure.empty "price" "house_quality" "bedrooms"
        "lat" "long" housesLegendDefault).df ≠ cols housesSample ∧
    "hover_text" ∈ cols (plotting_houses housesSample Figure.empty "price" "house_quality"
        "bedrooms" "lat" "long" housesLegendDefault).df ∧
    "hover_text" ∉ cols housesSample := by
  refine ⟨?_, ?_, by decide⟩
  · rw [plotting_houses_valid housesSample Figure.empty housesLegendDefault (by decide)]
    simp [housesDf, cols, setCol, housesSample, getCol]
  · rw [plotting_houses_valid housesSample Figure.empty housesLegendDefault (by decide)]
    rw [housesDf, mem_cols_setCol]
    exact Or.inr rfl

/-- C5 amended: the three dataset-consuming Layer Builders each write
exactly one derived hover_text column back onto the caller-supplied dataset in
place; every other column of the input keeps its values (and the appended
trace carries its own copy of the per-row display text). -/
theorem C5_hover_text_only_mutation_amended (dfH dfC dfS : DataFrame) (fig : Figure)
    (geo : GeoJSON)
    (hH : ∀ c ∈ housesRequired, c ∈ cols dfH)
    (hC : ∀ c ∈ choroRequired, c ∈ cols dfC)
    (hS : ∀ c ∈ schoolsRequired, c ∈ cols dfS) :
    ((plotting_houses dfH fig "price" "house_quality" "bedrooms" "lat" "long"
        housesLegendDefault).df = housesDf dfH "price" "house_quality" "bedrooms" ∧
      ∀ c, c ≠ "hover_text" →
        getCol (plotting_houses dfH fig "price" "house_quality" "bedrooms" "lat" "long"
          housesLegendDefault).df c = getCol dfH c) ∧
    ((add_choropleth_map dfC fig geo "zipcode" "house_quality" choroLegendDefault).df =
        choroDf dfC "zipcode" "house_quality" ∧
      ∀ c, c ≠ "hover_text" →
        getCol (add_choropleth_map dfC fig geo "zipcode" "house_quality"
          choroLegendDefault).df c = getCol dfC c) ∧
    ((add_schools_layer fig dfS "LAT_CEN" "LONG_CEN" "ABB_NAME" "FEATUREDES" "Schools").df =
        schoolsDf dfS "ABB_NAME" "FEATUREDES" ∧
      ∀ c, c ≠ "hover_text" →
        getCol (add_schools_layer fig dfS "LAT_CEN" "LONG_CEN" "ABB_NAME" "FEATUREDES"
          "Schools").df c = getCol dfS c) := by
  refine ⟨⟨?_, ?_⟩, ⟨?_, ?_⟩, ⟨?_, ?_⟩⟩
  · rw [plotting_houses_valid dfH fig _ hH]
  · intro c hc
    rw [plotting_houses_valid dfH fig _ hH]
    rw [housesDf]
    exact getCol_setCol_ne _ _ _ _ hc
  · rw [add_choropleth_map_valid dfC fig geo _ hC]
  · intro c hc
    rw [add_choropleth_map_valid dfC fig geo _ hC]
    rw [choroDf]
    exact getCol_setCol_ne _ _ _ _ hc
  · rw [add_schools_layer_valid dfS fig _ hS]
  · intro c hc
    rw [add_schools_layer_valid dfS fig _ hS]
    rw [schoolsDf]
    exact getCol_setCol_ne _ _ _ _ hc

/-- Witness for the amended C5 at the concrete sample datasets. -/
theorem C5_witness :
    (plotting_houses housesSample Figure.empty "price" "house_quality" "bedrooms" "lat"
      "long" housesLegendDefault).df = housesDf housesSample "price" "house_quality" "bedrooms" :=
  (C5_hover_text_only_mutation_amended housesSample countySample schoolsSample
    Figure.empty "geo" (by decide) (by decide) (by decide)).1.1

/-- C7: with a fully valid dataset each builder succeeds and grows the
canvas trace list by exactly one appended trace — the previously inserted
traces remain, unchanged and in their order, as a prefix — leaving the
layout untouched for the house, school and region builders; the outline
builder appends exactly one legend-dummy trace and registers exactly one
layout-level overlay. -/
theorem C7_valid_call_appends_one_layer (dfH dfC dfS : DataFrame) (fig : Figure)
    (geo parks : GeoJSON)
    (hH : ∀ c ∈ housesRequired, c ∈ cols dfH)
    (hC : ∀ c ∈ choroRequired, c ∈ cols dfC)
    (hS : ∀ c ∈ schoolsRequired, c ∈ cols dfS) :
    ((plotting_houses dfH fig "price" "house_quality" "bedrooms" "lat" "long"
        housesLegendDefault).err = none ∧
      (∃ t, (plotting_houses dfH fig "price" "house_quality" "bedrooms" "lat" "long"
        housesLegendDefault).fig.data = fig.data ++ [t]) ∧
      (plotting_houses dfH fig "price" "house_quality" "bedrooms" "lat" "long"
        housesLegendDefault).fig.layout = fig.layout) ∧
    ((add_choropleth_map dfC fig geo "zipcode" "house_quality" choroLegendDefault).err = none ∧
      (∃ t, (add_choropleth_map dfC fig geo "zipcode" "house_quality"
        choroLegendDefault).fig.data = fig.data ++ [t]) ∧
      (add_choropleth_map dfC fig geo "zipcode" "house_quality"
        choroLegendDefault).fig.layout = fig.layout) ∧
    ((add_schools_layer fig dfS "LAT_CEN" "LONG_CEN" "ABB_NAME" "FEATUREDES" "Schools").err =
        none ∧
      (∃ t, (add_schools_layer fig dfS "LAT_CEN" "LONG_CEN" "ABB_NAME" "FEATUREDES"
        "Schools").fig.data = fig.data ++ [t]) ∧
      (add_schools_layer fig dfS "LAT_CEN" "LONG_CEN" "ABB_NAME" "FEATUREDES"
        "Schools").fig.layout = fig.layout) ∧
    ((add_park_outlines_layer fig parks "Park outlines").data =
        fig.data ++ [parkDummyTrace "Park outlines"] ∧
      (add_park_outlines_layer fig parks "Park outlines").layout.mapboxLayers =
        [parkOverlay parks] ∧
      (add_park_outlines_layer fig parks "Park outlines").layout.mapboxStyle =
        fig.layout.mapboxStyle ∧
      (add_park_outlines_layer fig parks "Park outlines").layout.legend =
        fig.layout.legend) := by
  refine ⟨?_, ?_, ?_, rfl, rfl, rfl, rfl⟩
  · rw [plotting_houses_valid dfH fig _ hH]
    exact ⟨rfl, ⟨_, rfl⟩, rfl⟩
  · rw [add_choropleth_map_valid dfC fig geo _ hC]
    exact ⟨rfl, ⟨_, rfl⟩, rfl⟩
  · rw [add_schools_layer_valid dfS fig _ hS]
    exact ⟨rfl, ⟨_, rfl⟩, rfl⟩

/-- Witness for C7 at the concrete sample datasets: the house builder call
succeeds there. -/
theorem C7_witness :
    (plotting_houses housesSample Figure.empty "price" "house_quality" "bedrooms" "lat"
      "long" housesLegendDefault).err = none :=
  (C7_valid_call_appends_one_layer housesSample countySample schoolsSample Figure.empty
    "geo" "parks" (by decide) (by decide) (by decide)).1.1

/-- C4: a fully-populated orchestrated call inserts the layers in exactly
the order region (choropleth), outline (parks), school points, house
points; the layout update is applied after all additions, interactive
display follows, and the static export happens last; the finalized layout
carries the requested style, center, legend and the one park overlay. -/
theorem C4_full_composition_order (dfH dfS dfC : DataFrame) (parks g : GeoJSON)
    (p : String) (lat lon : ℚ) (style : String)
    (hH : ∀ c ∈ housesRequired, c ∈ cols dfH)
    (hS : ∀ c ∈ schoolsRequired, c ∈ cols dfS)
    (hC : ∀ c ∈ choroRequired, c ∈ cols dfC) :
    (vizualize_findings (some dfH) (some dfS) (some dfC) (some parks) (some g) (some p)
      lat lon style).err = none ∧
    (vizualize_findings (some dfH) (some dfS) (some dfC) (some parks) (some g) (some p)
      lat lon style).fig.data.map traceKind = [.region, .outline, .school, .house] ∧
    (vizualize_findings (some dfH) (some dfS) (some dfC) (some parks) (some g) (some p)
      lat lon style).events =
      [.addedLayer .region, .addedLayer .outline, .addedLayer .school, .addedLayer .house,
        .layoutFinalized, .shown, .exported p] ∧
    (vizualize_findings (some dfH) (some dfS) (some dfC) (some parks) (some g) (some p)
      lat lon style).fig.layout.mapboxStyle = some style ∧
    (vizualize_findings (some dfH) (some dfS) (some dfC) (some parks) (some g) (some p)
      lat lon style).fig.layout.mapboxCenter = some (lat, lon) ∧
    (vizualize_findings (some dfH) (some dfS) (some dfC) (some parks) (some g) (some p)
      lat lon style).fig.layout.legend = some legendSettings ∧
    (vizualize_findings (some dfH) (some dfS) (some dfC) (some parks) (some g) (some p)
      lat lon style).fig.layout.mapboxLayers = [parkOverlay parks] := by
  have hrH : ∀ fig : Figure,
      plotting_houses dfH fig "price" "house_quality" "bedrooms" "lat" "long"
        housesLegendDefault =
      ⟨none, housesDf dfH "price" "house_quality" "bedrooms",
        addTrace fig (housesTraceOf (housesDf dfH "price" "house_quality" "bedrooms")
          "price" "lat" "long" housesLegendDefault)⟩ :=
    fun fig => plotting_houses_valid dfH fig housesLegendDefault hH
  have hrC : ∀ fig : Figure,
      add_choropleth_map dfC fig g "zipcode" "house_quality" choroLegendDefault =
      ⟨none, choroDf dfC "zipcode" "house_quality",
        addTrace fig (choroTraceOf (choroDf dfC "zipcode" "house_quality") g
          "zipcode" "house_quality" choroLegendDefault)⟩ :=
    fun fig => add_choropleth_map_valid dfC fig g choroLegendDefault hC
  have hrS : ∀ fig : Figure,
      add_schools_layer fig dfS "LAT_CEN" "LONG_CEN" "ABB_NAME" "FEATUREDES" "Schools" =
      ⟨none, schoolsDf dfS "ABB_NAME" "FEATUREDES",
        addTrace fig (schoolsTraceOf (schoolsDf dfS "ABB_NAME" "FEATUREDES")
          "LAT_CEN" "LONG_CEN" "Schools")⟩ :=
    fun fig => add_schools_layer_valid dfS fig "Schools" hS
  simp [vizualize_findings, stepRegion, stepParks, stepSchools, stepHouses, stepFinalize,
    afterBuilder, hrH, hrC, hrS, addTrace, add_park_outlines_layer, update_map_layout,
    Figure.empty, Layout.empty, traceKind, housesTraceOf, schoolsTraceOf, choroTraceOf,
    parkDummyTrace]

/-- Witness for C4 at the concrete sample datasets. -/
theorem C4_witness :
    (vizualize_findings (some housesSample) (some schoolsSample) (some countySample)
      (some "parks") (some "geo") (some "map.png") 47 (-122) "open-street-map").err = none :=
  (C4_full_composition_order housesSample schoolsSample countySample "parks" "geo"
    "map.png" 47 (-122) "open-street-map" (by decide) (by decide) (by decide)).1

/-- C9: when exactly one of the region dataset and the region geometry is
supplied, the orchestrator silently omits the region layer: no error, no
region trace, and the remaining layers plus the Layout Finalizer and display
proceed normally. -/
theorem C9_one_sided_region_input_skipped (dfH dc : DataFrame) (g : GeoJSON)
    (lat lon : ℚ) (style : String)
    (hH : ∀ c ∈ housesRequired, c ∈ cols dfH) :
    ((vizualize_findings (some dfH) none (some dc) none none none lat lon style).err = none ∧
      (vizualize_findings (some dfH) none (some dc) none none none lat lon
        style).fig.data.map traceKind = [.house] ∧
      (vizualize_findings (some dfH) none (some dc) none none none lat lon style).events =
        [.addedLayer .house, .layoutFinalized, .shown] ∧
      (vizualize_findings (some dfH) none (some dc) none none none lat lon
        style).fig.layout.mapboxStyle = some style) ∧
    ((vizualize_findings (some dfH) none none none (some g) none lat lon style).err = none ∧
      (vizualize_findings (some dfH) none none none (some g) none lat lon
        style).fig.data.map traceKind = [.house] ∧
      (vizualize_findings (some dfH) none none none (some g) none lat lon style).events =
        [.addedLayer .house, .layoutFinalized, .shown] ∧
      (vizualize_findings (some dfH) none none none (some g) none lat lon
        style).fig.layout.mapboxStyle = some style) := by
  have hrH : ∀ fig : Figure,
      plotting_houses dfH fig "price" "house_quality" "bedrooms" "lat" "long"
        housesLegendDefault =
      ⟨none, housesDf dfH "price" "house_quality" "bedrooms",
        addTrace fig (housesTraceOf (housesDf dfH "price" "house_quality" "bedrooms")
          "price" "lat" "long" housesLegendDefault)⟩ :=
    fun fig => plotting_houses_valid dfH fig housesLegendDefault hH
  simp [vizualize_findings, stepRegion, stepParks, stepSchools, stepHouses, stepFinalize,
    afterBuilder, hrH, addTrace, update_map_layout, Figure.empty, Layout.empty,
    traceKind, housesTraceOf]

/-- Witness for C9 at the concrete sample dataset. -/
theorem C9_witness :
    (vizualize_findings (some housesSample) none (some countySample) none none none
      47 (-122) "open-street-map").err = none :=
  (C9_one_sided_region_input_skipped housesSample countySample "geo" 47 (-122)
    "open-street-map" (by decide)).1.1

end EDA
